import Mathlib

/-!
Verification of the RS-485 multi-serial protocol engine in
src/rs485multiSerial.ino against its specification.

The embedding below follows the source file closely.  Machine bytes are
modelled as natural numbers, reduced mod 256 exactly where the C code
truncates to the `byte` type.  C arrays read by the code are modelled as
lists (`aget` is C indexing with the convention that all indices used in
the theorems stay in range, matching the source); arrays that the code
writes into are modelled as index functions `Nat -> Nat` updated by
`writeArr`, so that writes outside the meaningful region stay visible.
Serial ports are modelled by the sequence of poll results the hardware
would deliver (`Nat -> Option Nat`: `none` when `available()` is false at
that poll, `some b` when a byte `b` is ready).  Diagnostic `Serial.print`
calls are side channels and are not modelled.
-/

namespace RS485

/-- Line 59: `#define SEND_MODE HIGH`, modelled as `true`. -/
def SEND_MODE : Bool := true

/-- Line 60: `#define RECEIVE_MODE LOW`, modelled as `false`. -/
def RECEIVE_MODE : Bool := false

/-- Line 61: `#define ACK B00000110`. -/
def ACK : Nat := 6

/-- Line 62: `#define NAK B00010101`. -/
def NAK : Nat := 21

/-- Line 63: `#define END B1110111` (a seven-bit literal, value 119). -/
def END : Nat := 119

/-- Line 64: `#define START B01010101` (value 85). -/
def START : Nat := 85

/-- Line 65: `#define MAXBYTES 32`. -/
def MAXBYTES : Nat := 32

/-- Line 80: `#define BAUDRATE 57600`. -/
def BAUDRATE : Nat := 57600

/-- Line 81: `unsigned int readWriteDelay = 200000 / (BAUDRATE / 100)`. -/
def readWriteDelay : Nat := 200000 / (BAUDRATE / 100)

/-- Line 84: `const byte dataLength = (2 * MAXBYTES) + 3`, the size of the
global `finalData` buffer and the `maxDataLength` argument that
`receiveData` passes to `readBuffer` in `loop()`. -/
def dataLength : Nat := 2 * MAXBYTES + 3

/-- Line 89: `#define PORT1 1`. -/
def PORT1 : Nat := 1

/-- Line 93: `#define PORT2 2`. -/
def PORT2 : Nat := 2

/-- The C cast `byte(~d)` applied to a byte `d` (line 206): bitwise
complement truncated to eight bits, i.e. `255 - d` for `d < 256`. -/
def binv (d : Nat) : Nat := 255 - d % 256

/-- C read `xs[i]` from an array modelled as a list; theorems only use it
with `i` inside the array, as the source does. -/
def aget (xs : List Nat) (i : Nat) : Nat := xs.getD i 0

/-- C write `a[i] = v` on an array modelled as an index function. -/
def writeArr (a : Nat → Nat) (i v : Nat) : Nat → Nat :=
  fun j => if j = i then v else a j

/-- The data/inverse pair loop of `sendData` (lines 204-207): iteration `i`
stores `data[i]` at frame index `2*i+1` and `byte(~data[i])` at `2*i+2`,
so the pairs occupy positions 1,2,...,2n in order. -/
def pairBytes : List Nat → List Nat
  | [] => []
  | d :: rest => d % 256 :: binv d :: pairBytes rest

/-- The frame `tempData` built by `sendData` (lines 198-207): index 0 gets
`START`, indices `numDataBytes-2` and `numDataBytes-1` get `END`, and the
loop fills the data/inverse pairs in between.  The writes touch disjoint
indices, so the buffer contents equal this list. -/
def mkFrame (data : List Nat) : List Nat :=
  START :: (pairBytes data ++ [END, END])

/-- Entry of `sendData` (lines 194-207): the only length guard is
`if (numBytes <= 0) return false;`; otherwise the code proceeds to build
the frame for the first `numBytes` bytes of `data` and transmit it.
`none` models the fail-fast `return false` before any I/O.  (For
`numBytes <= 126` the declared `byte numDataBytes = 3 + 2*numBytes` does
not wrap and equals the length of the constructed list.) -/
def sendDataStart (data : List Nat) (numBytes : Int) : Option (List Nat) :=
  if numBytes ≤ 0 then none
  else some (mkFrame (data.take numBytes.toNat))

/-- The C comparison `x != 0` used as an operand of `&`: value 1 when `x`
is nonzero, 0 otherwise. -/
def cne0 (x : Nat) : Nat := if x = 0 then 0 else 1

/-- The per-pair test of `verifyData` (line 409):
`data1[i] & data1[i+1] != 0 && data2[i] & data2[i+1] != 0 && data1[i] != data2[i]`.
By C precedence `!=` binds tighter than `&`, which binds tighter than
`&&`, so each of the first two conjuncts is
`data[i] & (data[i+1] != 0)`: the low bit of the data byte when the next
byte is nonzero, and 0 otherwise.  The loop returns false exactly when
all three conjuncts are nonzero. -/
def pairFail (a b : List Nat) (i : Nat) : Bool :=
  (Nat.land (aget a i) (cne0 (aget a (i + 1))) != 0)
    && (Nat.land (aget b i) (cne0 (aget b (i + 1))) != 0)
    && (aget a i != aget b i)

/-- `verifyData` (lines 384-419): both first bytes must be `START`, both
last bytes must be `END`, then the loop `for (i = 1; i < numDataBytes - 1;
i += 2)` returns false on the first index where `pairFail` holds.  The odd
indices below `numDataBytes - 1` are `2*k+1` for `k < (numDataBytes-1)/2`,
and since the body is pure, returning false at the first failing index is
the same as requiring no index to fail. -/
def verifyData (a b : List Nat) (n2 : Nat) : Bool :=
  if aget a 0 = START ∧ aget b 0 = START then
    if aget a (n2 - 1) = END ∧ aget b (n2 - 1) = END then
      (List.range ((n2 - 1) / 2)).all (fun k => !pairFail a b (2 * k + 1))
    else false
  else false

/-- The verification phase of `sendData` (lines 213-233) for one pass of
the wait loop.  `hasData` is the `checkPortHasData` poll result, `count`
is what `readBuffer` returned.  The result pairs the byte handed to
`sendByte` (if any) with `sendData`'s return value: lines 221-229 send
`ACK` and return true when `count > 0 && verifyData(...)`, and send `NAK`
and return false otherwise; when no data arrives within the budget the
code reaches line 233 and returns false without transmitting anything. -/
def sendDataVerifyPhase (tempData testData : List Nat) (n2 : Nat)
    (hasData : Bool) (count : Nat) : Option Nat × Bool :=
  if hasData then
    if 0 < count ∧ verifyData tempData testData n2 = true then (some ACK, true)
    else (some NAK, false)
  else (none, false)

/-- The validation that ends `readBuffer` (lines 331-349), applied to the
accumulated buffer and count: reject with 0 when the first byte is not
`START`, reject with 0 when either of the last two accumulated bytes is
not `END`, and otherwise return the accumulated count. -/
def readBufferValidate (buf : Nat → Nat) (count : Nat) : Nat :=
  if buf 0 ≠ START then 0
  else if buf (count - 1) ≠ END ∨ buf (count - 2) ≠ END then 0
  else count

/-- The extraction that `receiveData` performs on `ACK` (lines 279-280):
`data[0] = (count - 2) / 2;` then
`for (int i = 0; i < count - 2; i++) data[i + 1] = tempData[(2 * i) + 1];`.
`mem` is the receive scratch buffer `tempData` as an index function (its
cells past the accumulated count hold whatever was on the stack), `out` is
the caller's buffer before the call. -/
def extractWrites (mem : Nat → Nat) (count : Nat) (out : Nat → Nat) : Nat → Nat :=
  (List.range (count - 2)).foldl (fun o i => writeArr o (i + 1) (mem (2 * i + 1)))
    (writeArr out 0 ((count - 2) / 2))

/-- Reading the length-prefixed payload back out of a buffer laid out as
`receiveData` documents it: cell 0 is the payload length, cells 1.. hold
the payload. -/
def payloadOf (o : Nat → Nat) : List Nat :=
  (List.range (o 0)).map (fun i => o (i + 1))

/-- State of `readBuffer`'s accumulation loop (lines 305-326): the scratch
buffer, the running `count`, the position in the port's poll sequence, and
the `endMode` flag. -/
structure ReadState where
  buf : Nat → Nat
  count : Nat
  pos : Nat
  endMode : Bool

/-- One availability poll of the accumulation loop (lines 309-311 for
PORT1, identically lines 319-321 for PORT2):
`if (rs485Port1.available()) tempData[count++] = rs485Port1.read();`. -/
def readPoll1 (s : Nat → Option Nat) (st : ReadState) : ReadState :=
  match s st.pos with
  | some b =>
    { st with buf := writeArr st.buf st.count b, count := st.count + 1,
              pos := st.pos + 1 }
  | none => { st with pos := st.pos + 1 }

/-- The terminator check that follows each poll (lines 312-314):
`if (count > 1 && tempData[count-2] == END && tempData[count-1] == END)
endMode = false;`. -/
def readEndCheck (st : ReadState) : ReadState :=
  if 1 < st.count ∧ st.buf (st.count - 2) = END ∧ st.buf (st.count - 1) = END then
    { st with endMode := false }
  else st

/-- One full iteration of the accumulation loop body. -/
def readPollStep (s : Nat → Option Nat) (st : ReadState) : ReadState :=
  readEndCheck (readPoll1 s st)

/-- The accumulation loop of `readBuffer` (line 308):
`while (count < maxDataLength + 1 && endMode) { ... }`, iterated under a
fuel bound so that failure to terminate within any amount of fuel is
expressible: `none` means the loop was still running when the fuel ran
out.  The loop body contains no timeout check; `m` is the
`maxDataLength` argument. -/
def readAccLoop (s : Nat → Option Nat) (m : Nat) : Nat → ReadState → Option ReadState
  | 0, _ => none
  | fuel + 1, st =>
    if st.count < m + 1 ∧ st.endMode = true then
      readAccLoop s m fuel (readPollStep s st)
    else some st

/-- The loop entry state: `byte count = 0`, `boolean endMode = true`, no
polls consumed yet; the stack buffer is modelled as zero-initialised so
that any cell later found nonzero was necessarily written by the loop. -/
def initRead : ReadState :=
  { buf := fun _ => 0, count := 0, pos := 0, endMode := true }

/-- A port on which exactly one byte (`START`) becomes available and then
nothing ever arrives again. -/
def oneByteStream : Nat → Option Nat :=
  fun k => if k = 0 then some START else none

/-- A port on which a byte of value `START` is available at every poll and
no `END` byte ever appears. -/
def floodStream : Nat → Option Nat := fun _ => some START

/-- Observation of a finished accumulation run: the final `count` and the
content of the chosen buffer cell. -/
def readAccProbe (s : Nat → Option Nat) (m fuel idx : Nat) : Option (Nat × Nat) :=
  match readAccLoop s m fuel initRead with
  | some st => some (st.count, st.buf idx)
  | none => none

/-- Externally visible actions of the transport writer: a direction-line
write, a byte transmission, a flush, and a busy delay. -/
inductive Ev where
  | dir : Nat → Bool → Ev
  | tx : Nat → Nat → Ev
  | fl : Nat → Ev
  | pause : Nat → Ev

/-- Effect of one action on the direction line of `port` (the level last
written by `digitalWrite` on that port's enable pin). -/
def dirStep (port : Nat) (d : Bool) (e : Ev) : Bool :=
  match e with
  | Ev.dir p m => if p = port then m else d
  | _ => d

/-- Direction line of `port` after a sequence of actions, starting from
level `init`. -/
def dirAfter (evs : List Ev) (port : Nat) (init : Bool) : Bool :=
  evs.foldl (dirStep port) init

/-- `sendBuffer` (lines 358-381) as its action trace: for a known port,
set the enable pin to `SEND_MODE`, write each of the first `numBytes`
bytes with the inter-byte delay, delay, flush, and set the enable pin
back to `RECEIVE_MODE`; for any other port the body does nothing. -/
def sendBuffer (data : List Nat) (numBytes port : Nat) : List Ev :=
  if port = PORT1 then
    Ev.dir PORT1 SEND_MODE ::
      ((data.take numBytes).foldr
        (fun b r => Ev.tx PORT1 b :: Ev.pause (readWriteDelay / 32) :: r)
        [Ev.pause readWriteDelay, Ev.fl PORT1, Ev.dir PORT1 RECEIVE_MODE])
  else if port = PORT2 then
    Ev.dir PORT2 SEND_MODE ::
      ((data.take numBytes).foldr
        (fun b r => Ev.tx PORT2 b :: Ev.pause (readWriteDelay / 32) :: r)
        [Ev.pause readWriteDelay, Ev.fl PORT2, Ev.dir PORT2 RECEIVE_MODE])
  else []

/-- `sendByte` (lines 436-449) as its action trace: enable send, write the
byte, flush, enable receive; nothing for an unknown port. -/
def sendByte (b port : Nat) : List Ev :=
  if port = PORT1 then
    [Ev.dir PORT1 SEND_MODE, Ev.tx PORT1 b, Ev.fl PORT1, Ev.dir PORT1 RECEIVE_MODE]
  else if port = PORT2 then
    [Ev.dir PORT2 SEND_MODE, Ev.tx PORT2 b, Ev.fl PORT2, Ev.dir PORT2 RECEIVE_MODE]
  else []

/-- `checkPortHasData` (lines 422-433).  The body only executes a `return`
statement inside `if (rs485PortN.available()) return true;`.  When the
selected port has no byte available, and for every port other than
`PORT1` and `PORT2`, control reaches the end of the non-void function
without returning: that fall-off is modelled as `none` (the C++ return
value is undefined there).  `avail1`/`avail2` are the two ports'
availability. -/
def checkPortHasData (port : Nat) (avail1 avail2 : Bool) : Option Bool :=
  if port = PORT1 then (if avail1 then some true else none)
  else if port = PORT2 then (if avail2 then some true else none)
  else none

/-- The pair region built by the encoding loop is twice as long as the
payload. -/
lemma pairBytes_length (p : List Nat) : (pairBytes p).length = 2 * p.length := by
  induction p with
  | nil => rfl
  | cons a t ih => simp [pairBytes, ih]; omega

/-- Even positions of the pair region hold the (byte-truncated) payload
bytes. -/
lemma pairBytes_getD_even (p : List Nat) (i : Nat) (h : i < p.length) :
    (pairBytes p).getD (2 * i) 0 = p.getD i 0 % 256 := by
  induction p generalizing i with
  | nil => simp at h
  | cons a t ih =>
    cases i with
    | zero => rfl
    | succ j =>
      have h2 : 2 * (j + 1) = 2 * j + 1 + 1 := by ring
      simp only [pairBytes, h2, List.getD_cons_succ]
      exact ih j (by simp only [List.length_cons] at h; omega)

/-- Odd frame positions `2*i+1` of a constructed frame hold the payload
bytes. -/
lemma mkFrame_getD_odd (p : List Nat) (i : Nat) (h : i < p.length) :
    (mkFrame p).getD (2 * i + 1) 0 = p.getD i 0 % 256 := by
  unfold mkFrame
  rw [List.getD_cons_succ, List.getD_append _ _ _ _ (by rw [pairBytes_length]; omega)]
  exact pairBytes_getD_even p i h

/-- A written cell reads back the written value. -/
lemma writeArr_at (a : Nat → Nat) (i v : Nat) : writeArr a i v i = v := by
  simp [writeArr]

/-- Any other cell is unaffected by a write. -/
lemma writeArr_ne (a : Nat → Nat) (i v j : Nat) (h : j ≠ i) :
    writeArr a i v j = a j := by
  simp [writeArr, h]

/-- Cell contents after the extraction loop of `receiveData`: cells `1..n`
hold `mem` at the odd indices, all other cells are untouched. -/
lemma extractFold_get (mem o : Nat → Nat) (n j : Nat) :
    ((List.range n).foldl (fun acc i => writeArr acc (i + 1) (mem (2 * i + 1))) o) j
      = if 1 ≤ j ∧ j ≤ n then mem (2 * (j - 1) + 1) else o j := by
  induction n with
  | zero =>
    simp only [List.range_zero, List.foldl_nil]
    rw [if_neg (by omega)]
  | succ n ih =>
    rw [List.range_succ, List.foldl_append, List.foldl_cons, List.foldl_nil]
    by_cases hj : j = n + 1
    · subst hj
      rw [writeArr_at, if_pos (by omega)]
      congr 1
    · rw [writeArr_ne _ _ _ _ hj, ih]
      split_ifs with hA hB hB
      · rfl
      · exact absurd ⟨hA.1, by omega⟩ hB
      · exact absurd ⟨hB.1, by omega⟩ hA
      · rfl

/-- Mapping positional reads over the index range of a list recovers the
list. -/
lemma range_map_getD (p : List Nat) :
    (List.range p.length).map (fun i => p.getD i 0) = p := by
  induction p with
  | nil => rfl
  | cons a t ih =>
    rw [List.length_cons, List.range_succ_eq_map, List.map_cons, List.map_map]
    have hc : ((fun i => (a :: t).getD i 0) ∘ Nat.succ) = fun i => t.getD i 0 := by
      funext i
      simp [List.getD_cons_succ]
    rw [List.getD_cons_zero, hc, ih]

/-- An unavailable poll leaves the accumulation state unchanged except for
the poll position, as long as fewer than two bytes have accumulated. -/
lemma readPollStep_none (s : Nat → Option Nat) (st : ReadState)
    (hs : s st.pos = none) (hc : st.count ≤ 1) :
    readPollStep s st = { st with pos := st.pos + 1 } := by
  have h1 : readPoll1 s st = { st with pos := st.pos + 1 } := by
    unfold readPoll1
    rw [hs]
  rw [readPollStep, h1]
  unfold readEndCheck
  apply if_neg
  rintro ⟨h, -⟩
  exact absurd (show 1 < st.count from h) (by omega)

/-- Once the stalled port has delivered its single byte, every further
iteration of the accumulation loop only advances the poll position, so the
loop consumes any amount of fuel without finishing. -/
lemma readAccLoop_stuck (fuel : Nat) :
    ∀ st : ReadState, st.count = 1 → st.endMode = true → 1 ≤ st.pos →
      readAccLoop oneByteStream dataLength fuel st = none := by
  induction fuel with
  | zero => intro st _ _ _; rfl
  | succ fuel ih =>
    intro st h1 h2 h3
    have hd : dataLength = 67 := rfl
    have hpos : ¬ (st.pos = 0) := by omega
    have hsz : oneByteStream st.pos = none := by
      simp [oneByteStream, hpos]
    rw [readAccLoop, if_pos ⟨by omega, h2⟩]
    rw [readPollStep_none oneByteStream st hsz (by omega)]
    exact ih _ h1 h2 (show (1 : Nat) ≤ st.pos + 1 by omega)

/-- Direction tracking processes a trace one action at a time. -/
lemma dirAfter_cons (e : Ev) (l : List Ev) (port : Nat) (d : Bool) :
    dirAfter (e :: l) port d = dirAfter l port (dirStep port d e) := rfl

/-- A trace segment made only of byte writes and delays does not move a
direction line. -/
lemma dirAfter_txPause (q c : Nat) (l : List Nat) (tail : List Ev) (port : Nat)
    (d : Bool) :
    dirAfter (l.foldr (fun b r => Ev.tx q b :: Ev.pause c :: r) tail) port d
      = dirAfter tail port d := by
  induction l generalizing d with
  | nil => rfl
  | cons a t ih => simpa [dirAfter, dirStep] using ih d

/-- C1: Round trip.  For every payload `p` with `1 <= len(p) <= MAXBYTES`,
building the wire frame exactly as `sendData` does (lines 198-207) and
then extracting the payload from it exactly as `receiveData` does on an
`ACK` (lines 279-280, with `count` the full frame length) yields a buffer
whose cell 0 is `len(p)` and whose following `len(p)` cells are `p`: the
length-prefixed payload read back out is exactly `p`.  `mem` is the
receive scratch buffer, constrained to hold the frame on the frame's
indices and arbitrary elsewhere (the extraction loop also reads past the
frame; those reads do not reach the extracted payload). -/
theorem sendData_receiveData_roundTrip (p : List Nat) (mem out : Nat → Nat)
    (h1 : 1 ≤ p.length) (h2 : p.length ≤ MAXBYTES) (hb : ∀ d ∈ p, d < 256)
    (hmem : ∀ i, i < 2 * p.length + 3 → mem i = (mkFrame p).getD i 0) :
    payloadOf (extractWrites mem (2 * p.length + 3) out) = p := by
  have h0 : extractWrites mem (2 * p.length + 3) out 0 = p.length := by
    unfold extractWrites
    rw [extractFold_get, if_neg (by omega), writeArr_at]
    omega
  have hcell : ∀ i, i < p.length →
      extractWrites mem (2 * p.length + 3) out (i + 1) = p.getD i 0 := by
    intro i hi
    unfold extractWrites
    rw [extractFold_get, if_pos (by omega)]
    have hidx : 2 * (i + 1 - 1) + 1 = 2 * i + 1 := by omega
    rw [hidx, hmem _ (by omega), mkFrame_getD_odd p i hi]
    have hmemb : p.getD i 0 ∈ p := by
      rw [List.getD_eq_getElem _ _ hi]
      exact List.getElem_mem hi
    exact Nat.mod_eq_of_lt (hb _ hmemb)
  unfold payloadOf
  rw [h0, List.map_congr_left (fun i hi => hcell i (List.mem_range.mp hi))]
  exact range_map_getD p

/-- C1 witness: `mkFrame [5]` is the five-byte frame
`[START, 5, ~5, END, END] = [85, 5, 250, 119, 119]`, and extracting from
exactly that buffer yields `[5]`. -/
theorem sendData_receiveData_roundTrip_witness :
    mkFrame [5] = [85, 5, 250, 119, 119]
    ∧ payloadOf (extractWrites (fun i => (mkFrame [5]).getD i 0) 5 (fun _ => 0)) = [5] := by
  constructor
  · rfl
  · exact sendData_receiveData_roundTrip [5] (fun i => (mkFrame [5]).getD i 0)
      (fun _ => 0) (by decide) (by decide)
      (by intro d hd; simp only [List.mem_singleton] at hd; omega)
      (fun i _ => rfl)

/-- C2: the claim that `verifyData` returns true only when the data bytes
of the two frames agree is contradicted by the code.  `[85, 2, 253, 119,
119]` is the well-formed frame for payload `[2]`; corrupting its data
byte to 4 while leaving the paired inverse untouched gives `[85, 4, 253,
119, 119]`, and `verifyData` still returns true although the data bytes
at index 1 differ: the precedence slip on line 409 makes the pair check
look only at the low bit of the data byte, so mismatches on even data
bytes pass. -/
theorem verifyData_passes_corrupted_even_byte :
    verifyData [85, 2, 253, 119, 119] [85, 4, 253, 119, 119] 5 = true
    ∧ aget [85, 2, 253, 119, 119] 1 ≠ aget [85, 4, 253, 119, 119] 1 := by
  decide

/-- C4 counterexample: `sendData` does not fail fast for payload lengths
above `MAXBYTES`.  With `numBytes = 33 > 32` the guard on line 195 passes
and the code proceeds to build (and then transmit) the frame. -/
theorem sendData_no_upper_bound_check :
    MAXBYTES < 33 ∧ (sendDataStart (List.replicate 33 7) 33).isSome = true := by
  decide

/-- C4 (amended): the only fast-failure of `sendData` is the guard
`numBytes <= 0` (line 195): it returns false before any I/O exactly when
`numBytes <= 0`, and for every positive length — with no upper bound —
it proceeds to construct the frame. -/
theorem sendData_fail_fast_iff (data : List Nat) (numBytes : Int) :
    sendDataStart data numBytes = none ↔ numBytes ≤ 0 := by
  unfold sendDataStart
  split_ifs with h
  · simp [h]
  · simp [h]

/-- C5 counterexample: with data available on the port but `readBuffer`
returning `count = 0`, `sendData` does transmit a further byte: the
`else` branch on lines 226-229 sends `NAK` and returns false, contrary to
the claim that nothing is sent in this sub-case. -/
theorem sendData_naks_on_empty_read :
    (sendDataVerifyPhase (mkFrame [5]) [0, 0, 0, 0, 0] 5 true 0).1 = some NAK
    ∧ (sendDataVerifyPhase (mkFrame [5]) [0, 0, 0, 0, 0] 5 true 0).2 = false := by
  decide

/-- C5 (amended): whenever the port reports data available and the echo
read yields `count = 0`, `sendData` sends a `NAK` byte and returns false
— the `count == 0` case falls into the same `else` branch as a failed
comparison; only the no-data timeout path returns without transmitting. -/
theorem sendData_count_zero_sends_nak (tempData testData : List Nat) (n2 : Nat) :
    sendDataVerifyPhase tempData testData n2 true 0 = (some NAK, false) := by
  simp [sendDataVerifyPhase]

/-- C3 counterexample: for the handshake of payload `[1,2,3]` (frame of 9
bytes, `count = 9`) the outBuffer does not merely become `[3, 1, 2, 3]`:
the extraction loop runs `count - 2 = 7` times, so cell 4 — beyond the
length-prefixed payload — is also overwritten, deterministically with the
`END` marker (119), starting from an all-zero buffer. -/
theorem receiveData_ack_clobbers_cell_past_payload :
    extractWrites (fun i => (mkFrame [1, 2, 3]).getD i 0) 9 (fun _ => 0) 4 = END
    ∧ END ≠ 0
    ∧ extractWrites (fun i => (mkFrame [1, 2, 3]).getD i 0) 9 (fun _ => 0) 0 = 3 := by
  decide

/-- C3 (amended): on `ACK`, `receiveData` sets `outBuffer[0] = (count-2)/2`
and `outBuffer[i+1] = tempData[2*i+1]` for every `i < count - 2` — so the
first `1 + (count-2)/2` cells are the received payload length followed by
the payload bytes in order, but the loop overruns: cells up to index
`count - 2` are also overwritten with bytes taken past the frame's data
region.  Cells beyond index `count - 2` are untouched. -/
theorem receiveData_ack_buffer (mem out : Nat → Nat) (count : Nat) :
    extractWrites mem count out 0 = (count - 2) / 2
    ∧ (∀ i, i < count - 2 → extractWrites mem count out (i + 1) = mem (2 * i + 1))
    ∧ (∀ j, 0 < j → count - 2 < j → extractWrites mem count out j = out j) := by
  refine ⟨?_, ?_, ?_⟩
  · unfold extractWrites
    rw [extractFold_get, if_neg (by omega), writeArr_at]
  · intro i hi
    unfold extractWrites
    rw [extractFold_get, if_pos (by omega)]
    congr 1
  · intro j hj0 hj
    unfold extractWrites
    rw [extractFold_get, if_neg (by omega), writeArr_ne _ _ _ _ (by omega)]

/-- C3 witness: the amended statement applied to the `[1,2,3]` handshake
(`count = 9`): cell 0 holds the payload length 3, cell 1 holds the first
payload byte 1, and cell 9 is untouched. -/
theorem receiveData_ack_buffer_witness :
    extractWrites (fun i => (mkFrame [1, 2, 3]).getD i 0) 9 (fun _ => 0) 0 = 3
    ∧ extractWrites (fun i => (mkFrame [1, 2, 3]).getD i 0) 9 (fun _ => 0) 1 = 1
    ∧ extractWrites (fun i => (mkFrame [1, 2, 3]).getD i 0) 9 (fun _ => 0) 9 = 0 := by
  have h := receiveData_ack_buffer (fun i => (mkFrame [1, 2, 3]).getD i 0) (fun _ => 0) 9
  exact ⟨h.1, h.2.1 0 (by omega), h.2.2 9 (by omega) (by omega)⟩

/-- C6: bounded blocking fails.  On a port that delivers exactly one byte
and then stops (before any double-`END` terminator and well before the
byte bound), the accumulation loop of `readBuffer` — which contains no
timeout check — never exits: for every amount of fuel the loop is still
running.  Both `sendData` and `receiveData` reach this loop as soon as
`checkPortHasData` reports the first byte, so one invocation can block
indefinitely instead of failing within the budget. -/
theorem readBuffer_accumulation_diverges (fuel : Nat) :
    readAccLoop oneByteStream dataLength fuel initRead = none := by
  cases fuel with
  | zero => rfl
  | succ fuel =>
    rw [readAccLoop, if_pos (by decide)]
    exact readAccLoop_stuck fuel _ rfl rfl (by decide)

/-- C7: framing rejection.  The validation that ends `readBuffer` (lines
331-349) returns `count = 0` whenever the accumulated buffer's first byte
is not `START` or either of its last two bytes is not `END`, regardless
of the rest of the buffer; and it returns the nonzero accumulated count
exactly when both framing checks pass (the accumulation loop only hands
over counts of at least 2). -/
theorem readBuffer_framing_rejection (buf : Nat → Nat) (count : Nat)
    (h : 2 ≤ count) :
    ((buf 0 ≠ START ∨ buf (count - 1) ≠ END ∨ buf (count - 2) ≠ END) →
      readBufferValidate buf count = 0)
    ∧ ((buf 0 = START ∧ buf (count - 1) = END ∧ buf (count - 2) = END) →
      readBufferValidate buf count = count ∧ readBufferValidate buf count ≠ 0) := by
  unfold readBufferValidate
  constructor
  · intro hbad
    split_ifs with hs he
    · rfl
    · rfl
    · exfalso
      rcases hbad with hb | hb | hb
      · exact hs hb
      · exact he (Or.inl hb)
      · exact he (Or.inr hb)
  · rintro ⟨hs, he1, he2⟩
    rw [if_neg (by simp [hs]), if_neg (by simp [he1, he2])]
    exact ⟨rfl, by omega⟩

/-- C7 witness: a well-framed accumulated buffer of count 5 is returned
as-is, and the same buffer with its first byte not `START` is rejected
with 0. -/
theorem readBuffer_framing_rejection_witness :
    readBufferValidate (fun i => [85, 5, 250, 119, 119].getD i 0) 5 = 5
    ∧ readBufferValidate (fun i => [0, 5, 250, 119, 119].getD i 0) 5 = 0 := by
  constructor
  · exact ((readBuffer_framing_rejection (fun i => [85, 5, 250, 119, 119].getD i 0) 5
      (by omega)).2 ⟨rfl, rfl, rfl⟩).1
  · exact (readBuffer_framing_rejection (fun i => [0, 5, 250, 119, 119].getD i 0) 5
      (by omega)).1 (Or.inl (by decide))

/-- C8: direction discipline.  For each real port, both transmission
operations — `sendBuffer` (lines 358-381) and `sendByte` (lines 436-449)
— leave the targeted port's direction line at `RECEIVE_MODE` when they
return, whatever level it started at and whatever is transmitted: the
last enable-pin write in every trace is `RECEIVE_MODE`. -/
theorem transmit_restores_receive_mode (data : List Nat) (numBytes b port : Nat)
    (init : Bool) (h : port = PORT1 ∨ port = PORT2) :
    dirAfter (sendBuffer data numBytes port) port init = RECEIVE_MODE
    ∧ dirAfter (sendByte b port) port init = RECEIVE_MODE := by
  rcases h with h | h <;> subst h <;> constructor
  · unfold sendBuffer
    rw [if_pos rfl, dirAfter_cons, dirAfter_txPause]
    rfl
  · unfold sendByte
    rw [if_pos rfl]
    rfl
  · unfold sendBuffer
    rw [if_neg (by decide), if_pos rfl, dirAfter_cons, dirAfter_txPause]
    rfl
  · unfold sendByte
    rw [if_neg (by decide), if_pos rfl]
    rfl

/-- C8 witness: a concrete two-byte transmission and a concrete single
byte on PORT1, starting from transmit mode, both end in receive mode. -/
theorem transmit_restores_receive_mode_witness :
    dirAfter (sendBuffer [1, 2] 2 PORT1) PORT1 true = RECEIVE_MODE
    ∧ dirAfter (sendByte 6 PORT1) PORT1 true = RECEIVE_MODE :=
  transmit_restores_receive_mode [1, 2] 2 6 PORT1 true (Or.inl rfl)

/-- C9: the accumulation loop of `readBuffer` does write the caller's
buffer at index `maxDataLength`.  With `maxDataLength = dataLength = 67`
(the value `receiveData` passes from `loop()`) and a port delivering a
byte of 85 at every poll with no double-`END`, the loop runs until
`count = maxDataLength + 1 = 68` and its last write lands at index 67 —
one past the end of the 67-byte buffer the callers allocate: the cell at
index `dataLength`, initially 0, holds 85 when the loop exits. -/
theorem readBuffer_writes_past_capacity :
    readAccProbe floodStream dataLength 100 dataLength = some (68, 85)
    ∧ initRead.buf dataLength = 0 := by
  constructor
  · rfl
  · rfl

/-- C10: `checkPortHasData` (lines 422-433) does not return a boolean on
every path.  When the selected port has no byte available — and for every
port other than `PORT1` and `PORT2` — control falls off the end of the
non-void function without executing any `return`, so no defined boolean
(in particular not `false`) is produced. -/
theorem checkPortHasData_missing_return :
    checkPortHasData PORT1 false false = none
    ∧ checkPortHasData PORT2 false false = none
    ∧ checkPortHasData 3 true true = none := by
  decide

end RS485
